import Mathlib

/-!
The script elm-interop.js: touch detection and the start-up hand-off to the Elm
application.

A shallow embedding of `src/js/elm-interop.js`:

```
function isTouchDevice() {
  return 'ontouchstart' in window || 'onmsgesturechange' in window;
}
var initialValues = { isTouchDevice: isTouchDevice() };
var elmApp = Elm.fullscreen(Elm.Main, initialValues);
elmApp.ports.isTouchDevice.send(initialValues.isTouchDevice);
```

The file is a classic script: its top-level variables `initialValues` and
`elmApp` are writable properties of the global object `window`, and line 13
resolves `initialValues` again after foreign code has run on line 11. The state
of the embedding is therefore the global object itself, which every foreign call
receives and hands back. The Elm runtime is foreign code: it is a parameter of
the embedding (`Runtime`).

The two variables enter the global object at their assignments. The hoisted
declarations (the function object `isTouchDevice`, the variables while still
`undefined`) are not represented: the script uses them only before any foreign
code has run.
-/

namespace ElmInterop

/-! ## Values -/

/-- JavaScript values as far as the script can observe them. An object is
represented by the table of the properties visible on it, own or inherited:
both operators the script uses (`in` and member access) look through the
prototype chain, so they see exactly this table. A callable object carries the
identifier of its behaviour. Properties are data properties. -/
inductive Value where
  | undefined
  | null
  | bool (b : Bool)
  | number (n : Int)
  | string (s : String)
  | object (props : List (String × Value))
  | func (id : Nat) (props : List (String × Value))

/-- Property table of an object: names with their values, first entry wins. -/
abbrev Props := List (String × Value)

/-- Exceptions a statement of the script can complete with. -/
inductive JSError where
  | referenceError (name : String)
  | typeError (what : String)
  | thrown (v : Value)

/-- Presence test on a property table (the abstract operation HasProperty). -/
def hasProperty (key : String) (ps : Props) : Bool :=
  ps.any (fun p => p.1 == key)

/-- The operator `key in v`: a TypeError unless `v` is an object, otherwise
whether the name is visible on it. The value stored under the name plays no
part. -/
def inOp (key : String) (v : Value) : Except JSError Bool :=
  match v with
  | .object ps => .ok (hasProperty key ps)
  | .func _ ps => .ok (hasProperty key ps)
  | _ => .error (.typeError "right-hand side of in is not an object")

/-- Member access `v.key`: a TypeError on `undefined` and `null`, the stored
value (or `undefined`) on objects, `undefined` on the other primitives, whose
wrapper prototypes define none of the names the script reads. -/
def getProp (v : Value) (key : String) : Except JSError Value :=
  match v with
  | .undefined => .error (.typeError "cannot read property of undefined")
  | .null => .error (.typeError "cannot read property of null")
  | .object ps => .ok ((ps.lookup key).getD .undefined)
  | .func _ ps => .ok ((ps.lookup key).getD .undefined)
  | _ => .ok .undefined

/-! ## State shared with foreign code -/

/-- Assignment `window.key = v`: the entry is replaced, or added. -/
def setProp (ps : Props) (key : String) (v : Value) : Props :=
  (key, v) :: ps.filter (fun p => p.1 != key)

/-- Resolution of a global identifier that is a property of the global object:
its value, or a ReferenceError when no such property exists. -/
def resolve (window : Props) (name : String) : Except JSError Value :=
  match window.lookup name with
  | some v => .ok v
  | none => .error (.referenceError name)

/-- The embedded-application runtime, foreign to this script. `Elm` is the
binding of the global identifier when the script starts (`none`: not declared);
it is kept apart from `window` because a binding made with `let`, `const` or
`class` by another script is not a property of the global object, and no
foreign code runs before line 11 reads it. `call id this args window` is the
behaviour of the callable object `id`: it completes normally with a value or
abruptly with an exception, and leaves the global object in a new state.
Objects have no identity here, so whatever the callee does to what
`initialValues` reaches, assigning to a field of the object it was passed or
rebinding the variable, shows as a new value of the property `initialValues`. -/
structure Runtime where
  Elm : Option Value
  call : Nat → Value → List Value → Props → Except JSError Value × Props

/-- Calls the script makes into the runtime, by call site. -/
inductive Event where
  | construct (fn : Nat) (program : Value) (config : Value)
  | send (fn : Nat) (value : Value)

/-- How a run of the script ends: its completion, the global object it leaves
and the calls it made, in order. -/
structure Outcome where
  result : Except JSError Unit
  window : Props
  trace : List Event

/-! ## The script -/

/-- Lines 3-5, `function isTouchDevice()`. State-passing over the global
object: the result of the call and the global object after it. The operator
`||` evaluates its right operand only when the left one is falsy. -/
def isTouchDevice (window : Props) : Except JSError Value × Props :=
  match inOp "ontouchstart" (.object window) with
  | .error e => (.error e, window)
  | .ok true => (.ok (.bool true), window)
  | .ok false =>
    match inOp "onmsgesturechange" (.object window) with
    | .error e => (.error e, window)
    | .ok b => (.ok (.bool b), window)


/-- Lines 7-9, `var initialValues = { isTouchDevice: isTouchDevice() }`: the
global object once the object literal has been evaluated and stored in the
variable. -/
def makeInitialValues (window : Props) : Except JSError Props :=
  match isTouchDevice window with
  | (.error e, _) => .error e
  | (.ok v, window1) => .ok (setProp window1 "initialValues" (.object [("isTouchDevice", v)]))

/-- Line 11, `var elmApp = Elm.fullscreen(Elm.Main, initialValues)`. The callee
`Elm.fullscreen` is read first, then the arguments, then callability is
checked and the call made with `Elm` as receiver. A value returned is stored
in the variable `elmApp`. -/
def constructApp (rt : Runtime) (w : Props) : Except JSError Value × Props × List Event :=
  match rt.Elm with
  | none => (.error (.referenceError "Elm"), w, [])
  | some elm =>
    match getProp elm "fullscreen" with
    | .error e => (.error e, w, [])
    | .ok f =>
      match getProp elm "Main" with
      | .error e => (.error e, w, [])
      | .ok main =>
        match resolve w "initialValues" with
        | .error e => (.error e, w, [])
        | .ok config =>
          match f with
          | .func fid _ =>
            match rt.call fid elm [main, config] w with
            | (.error e, w1) => (.error e, w1, [.construct fid main config])
            | (.ok app, w1) => (.ok app, setProp w1 "elmApp" app, [.construct fid main config])
          | _ => (.error (.typeError "Elm.fullscreen is not a function"), w, [])

/-- Line 13, `elmApp.ports.isTouchDevice.send(initialValues.isTouchDevice)`.
The member chain is read first; then the argument: the variable
`initialValues` is resolved as it is now and its field read, a TypeError when
the variable holds `undefined` or `null`; then callability is checked and the
call made with the port as receiver. -/
def notify (rt : Runtime) (w : Props) : Except JSError Value × Props × List Event :=
  match resolve w "elmApp" with
  | .error e => (.error e, w, [])
  | .ok elmApp =>
    match getProp elmApp "ports" with
    | .error e => (.error e, w, [])
    | .ok ports =>
      match getProp ports "isTouchDevice" with
      | .error e => (.error e, w, [])
      | .ok port =>
        match getProp port "send" with
        | .error e => (.error e, w, [])
        | .ok send =>
          match resolve w "initialValues" with
          | .error e => (.error e, w, [])
          | .ok config =>
            match getProp config "isTouchDevice" with
            | .error e => (.error e, w, [])
            | .ok arg =>
              match send with
              | .func sid _ =>
                let r := rt.call sid port [arg] w
                (r.1, r.2, [.send sid arg])
              | _ => (.error (.typeError "send is not a function"), w, [])

/-- The whole script, run in a host whose global object is `window`. -/
def bootstrap (rt : Runtime) (window : Props) : Outcome :=
  match makeInitialValues window with
  | .error e => ⟨.error e, window, []⟩
  | .ok w0 =>
    match constructApp rt w0 with
    | (.error e, w1, t1) => ⟨.error e, w1, t1⟩
    | (.ok _, w1, t1) =>
      match notify rt w1 with
      | (.error e, w2, t2) => ⟨.error e, w2, t1 ++ t2⟩
      | (.ok _, w2, t2) => ⟨.ok (), w2, t1 ++ t2⟩

/-! ## Reading a trace -/

/-- The values sent on the port, in order. -/
def sent (t : List Event) : List Value :=
  t.filterMap (fun e => match e with
    | .send _ v => some v
    | .construct _ _ _ => none)

/-- The (program, configuration) pairs the construction entry point was
called with, in order. -/
def constructions (t : List Event) : List (Value × Value) :=
  t.filterMap (fun e => match e with
    | .construct _ p c => some (p, c)
    | .send _ _ => none)

/-- The port of a handle: the receiver and the identifier of the callable that
`handle.ports.isTouchDevice.send` evaluates to, if the chain can be read and
ends in a callable. -/
def touchPort (handle : Value) : Option (Value × Nat) :=
  match getProp handle "ports" with
  | .error _ => none
  | .ok ports =>
    match getProp ports "isTouchDevice" with
    | .error _ => none
    | .ok port =>
      match getProp port "send" with
      | .ok (.func sid _) => some (port, sid)
      | _ => none

/-- The ways the construction entry point can be absent or fail when line 11
runs on the global object `w`, each with the exception it produces. -/
inductive EntryPointFails (rt : Runtime) (w : Props) : JSError → Prop where
  | undeclared : rt.Elm = none → EntryPointFails rt w (.referenceError "Elm")
  | unreadable (elm : Value) (e : JSError) :
      rt.Elm = some elm → getProp elm "fullscreen" = .error e → EntryPointFails rt w e
  | notCallable (elm f : Value) :
      rt.Elm = some elm → getProp elm "fullscreen" = .ok f →
      (∀ fid ps, f ≠ .func fid ps) →
      EntryPointFails rt w (.typeError "Elm.fullscreen is not a function")
  | raises (elm main config : Value) (fid : Nat) (ps : Props) (e : JSError) :
      rt.Elm = some elm → getProp elm "fullscreen" = .ok (.func fid ps) →
      getProp elm "Main" = .ok main → resolve w "initialValues" = .ok config →
      (rt.call fid elm [main, config] w).1 = .error e →
      EntryPointFails rt w e

/-! ## Mock hosts and runtimes -/

/-- A host exposing the touch-start marker, with value `null`. -/
def touchWindow : Props := [("document", .object []), ("ontouchstart", .null)]

/-- A host exposing only the legacy gesture-change marker. -/
def gestureWindow : Props := [("onmsgesturechange", .undefined), ("name", .string "")]

/-- A host exposing neither marker. -/
def plainWindow : Props := [("document", .object []), ("onclick", .null)]

/-- A handle whose `ports.isTouchDevice.send` is the callable 1. -/
def mockHandle : Value :=
  .object [("ports", .object [("isTouchDevice", .object [("send", .func 1 [])])])]

/-- The global `Elm` of the mocks: `fullscreen` is the callable 0. -/
def mockElm : Value := .object [("Main", .object []), ("fullscreen", .func 0 [])]


/-- A mock runtime that returns the handle and touches nothing. -/
def recordingRuntime : Runtime where
  Elm := some mockElm
  call := fun id _ _ w =>
    match id with
    | 0 => (.ok mockHandle, w)
    | _ => (.ok .undefined, w)

/-- A mock runtime whose entry point is
`function (program, config) { config.isTouchDevice = b; return handle; }`, or
as well `function () { initialValues = { isTouchDevice: b }; return handle; }`:
the script cannot tell the two apart. -/
def overwritingRuntime (b : Bool) : Runtime where
  Elm := some mockElm
  call := fun id _ _ w =>
    match id with
    | 0 => (.ok mockHandle, setProp w "initialValues" (.object [("isTouchDevice", .bool b)]))
    | _ => (.ok .undefined, w)

/-- A mock runtime whose entry point is
`function () { window.initialValues = undefined; return handle; }`. -/
def clearingRuntime : Runtime where
  Elm := some mockElm
  call := fun id _ _ w =>
    match id with
    | 0 => (.ok mockHandle, setProp w "initialValues" .undefined)
    | _ => (.ok .undefined, w)

/-- A mock runtime whose entry point throws the string "boom". -/
def throwingRuntime : Runtime where
  Elm := some mockElm
  call := fun id _ _ w =>
    match id with
    | 0 => (.error (.thrown (.string "boom")), w)
    | _ => (.ok .undefined, w)

/-- A page on which the Elm program was never loaded. -/
def missingRuntime : Runtime where
  Elm := none
  call := fun _ _ _ w => (.ok .undefined, w)

/-! ## The detector -/

theorem hasProperty_iff (key : String) (ps : Props) :
    hasProperty key ps = true ↔ ∃ v, (key, v) ∈ ps := by
  unfold hasProperty
  rw [List.any_eq_true]
  constructor
  · rintro ⟨⟨k, v⟩, hmem, hk⟩
    have hk2 : k = key := by simpa using hk
    subst hk2
    exact ⟨v, hmem⟩
  · rintro ⟨v, hmem⟩
    exact ⟨(key, v), hmem, by simp⟩

theorem hasProperty_eq_false_iff (key : String) (ps : Props) :
    hasProperty key ps = false ↔ ∀ v, (key, v) ∉ ps := by
  rw [← Bool.not_eq_true, hasProperty_iff]
  push_neg
  rfl

theorem isTouchDevice_eq (window : Props) :
    isTouchDevice window =
      (.ok (.bool (hasProperty "ontouchstart" window || hasProperty "onmsgesturechange" window)),
        window) := by
  unfold isTouchDevice inOp
  cases h : hasProperty "ontouchstart" window <;> simp [h]

theorem makeInitialValues_eq (window : Props) :
    makeInitialValues window =
      .ok (setProp window "initialValues" (.object [("isTouchDevice",
        .bool (hasProperty "ontouchstart" window || hasProperty "onmsgesturechange" window))])) := by
  unfold makeInitialValues
  rw [isTouchDevice_eq]

/-- C1: in every host environment whose window exposes the name `ontouchstart`
or the name `onmsgesturechange` (one of them or both, under any value),
`isTouchDevice()` returns `true`. -/
theorem isTouchDevice_true_of_marker (window : Props)
    (h : (∃ v, ("ontouchstart", v) ∈ window) ∨ (∃ v, ("onmsgesturechange", v) ∈ window)) :
    (isTouchDevice window).1 = .ok (.bool true) := by
  rw [isTouchDevice_eq]
  rcases h with h | h
  · simp [(hasProperty_iff "ontouchstart" window).2 h]
  · simp [(hasProperty_iff "onmsgesturechange" window).2 h]

theorem isTouchDevice_true_of_marker_witness :
    (isTouchDevice touchWindow).1 = .ok (.bool true) ∧
    (isTouchDevice gestureWindow).1 = .ok (.bool true) ∧
    (isTouchDevice (touchWindow ++ gestureWindow)).1 = .ok (.bool true) :=
  ⟨isTouchDevice_true_of_marker touchWindow (Or.inl ⟨.null, by simp [touchWindow]⟩),
   isTouchDevice_true_of_marker gestureWindow (Or.inr ⟨.undefined, by simp [gestureWindow]⟩),
   isTouchDevice_true_of_marker (touchWindow ++ gestureWindow)
     (Or.inl ⟨.null, by simp [touchWindow]⟩)⟩

/-- C2: in every host environment whose window exposes neither `ontouchstart`
nor `onmsgesturechange`, `isTouchDevice()` returns `false`, whatever else the
window exposes. -/
theorem isTouchDevice_false_of_no_marker (window : Props)
    (h1 : ∀ v, ("ontouchstart", v) ∉ window)
    (h2 : ∀ v, ("onmsgesturechange", v) ∉ window) :
    (isTouchDevice window).1 = .ok (.bool false) := by
  rw [isTouchDevice_eq]
  simp [(hasProperty_eq_false_iff "ontouchstart" window).2 h1,
    (hasProperty_eq_false_iff "onmsgesturechange" window).2 h2]

theorem isTouchDevice_false_of_no_marker_witness :
    (isTouchDevice plainWindow).1 = .ok (.bool false) :=
  isTouchDevice_false_of_no_marker plainWindow
    (by simp [plainWindow]) (by simp [plainWindow])

/-- C7: `isTouchDevice()` has no error condition: in every host environment the
call completes normally and its result is a boolean. -/
theorem isTouchDevice_returns_bool (window : Props) :
    ∃ b : Bool, (isTouchDevice window).1 = .ok (.bool b) := by
  rw [isTouchDevice_eq]
  exact ⟨_, rfl⟩

/-- C8: `isTouchDevice()` has no side effect: the window is the same after the
call as before it, table and values, and a second call on it returns what the
first returned. -/
theorem isTouchDevice_pure (window : Props) :
    (isTouchDevice window).2 = window ∧
    (isTouchDevice (isTouchDevice window).2).1 = (isTouchDevice window).1 := by
  have h : (isTouchDevice window).2 = window := by rw [isTouchDevice_eq]
  exact ⟨h, by rw [h]⟩

/-- C10: detection depends on the presence of a marker only. A window in which
`ontouchstart` or `onmsgesturechange` is a property makes `isTouchDevice()`
return `true` whatever the value of that property; and two windows that agree
on which of the two names are present give the same result. -/
theorem isTouchDevice_presence_only (w1 w2 : Props) :
    (∀ key v, key = "ontouchstart" ∨ key = "onmsgesturechange" → (key, v) ∈ w1 →
      (isTouchDevice w1).1 = .ok (.bool true)) ∧
    ((((∃ v, ("ontouchstart", v) ∈ w1) ↔ (∃ v, ("ontouchstart", v) ∈ w2)) ∧
      ((∃ v, ("onmsgesturechange", v) ∈ w1) ↔ (∃ v, ("onmsgesturechange", v) ∈ w2))) →
      (isTouchDevice w1).1 = (isTouchDevice w2).1) := by
  constructor
  · intro key v hkey hmem
    rw [isTouchDevice_eq]
    rcases hkey with hk | hk <;> subst hk
    · simp [(hasProperty_iff "ontouchstart" w1).2 ⟨v, hmem⟩]
    · simp [(hasProperty_iff "onmsgesturechange" w1).2 ⟨v, hmem⟩]
  · rintro ⟨ha, hb⟩
    rw [isTouchDevice_eq, isTouchDevice_eq]
    have e1 : hasProperty "ontouchstart" w1 = hasProperty "ontouchstart" w2 := by
      rw [Bool.eq_iff_iff, hasProperty_iff, hasProperty_iff]
      exact ha
    have e2 : hasProperty "onmsgesturechange" w1 = hasProperty "onmsgesturechange" w2 := by
      rw [Bool.eq_iff_iff, hasProperty_iff, hasProperty_iff]
      exact hb
    rw [e1, e2]

theorem isTouchDevice_presence_only_witness :
    (isTouchDevice [("ontouchstart", Value.bool false)]).1 = .ok (.bool true) ∧
    (isTouchDevice [("onmsgesturechange", Value.undefined)]).1 = .ok (.bool true) ∧
    (isTouchDevice [("ontouchstart", Value.null)]).1 =
      (isTouchDevice [("x", Value.number 1), ("ontouchstart", Value.string "on")]).1 :=
  ⟨(isTouchDevice_presence_only [("ontouchstart", Value.bool false)] []).1
      "ontouchstart" (.bool false) (Or.inl rfl) (by simp),
   (isTouchDevice_presence_only [("onmsgesturechange", Value.undefined)] []).1
      "onmsgesturechange" .undefined (Or.inr rfl) (by simp),
   (isTouchDevice_presence_only [("ontouchstart", Value.null)]
      [("x", Value.number 1), ("ontouchstart", Value.string "on")]).2
      ⟨⟨fun _ => ⟨.string "on", by simp⟩, fun _ => ⟨.null, by simp⟩⟩, by simp⟩⟩


/-! ## The bootstrap -/

theorem lookup_setProp_same (ps : Props) (key : String) (v : Value) :
    (setProp ps key v).lookup key = some v := by
  simp [setProp, List.lookup]

theorem lookup_filter_ne (ps : Props) (key other : String) (hne : other ≠ key) :
    (ps.filter (fun p => p.1 != key)).lookup other = ps.lookup other := by
  induction ps with
  | nil => rfl
  | cons p rest ih =>
    obtain ⟨k, x⟩ := p
    by_cases hk : k = key
    · subst hk
      have h1 : (other == k) = false := by simpa using hne
      simp [List.filter, List.lookup, h1, ih]
    · have h2 : (k != key) = true := by simpa using hk
      simp only [List.filter, h2, List.lookup]
      cases other == k <;> simp [ih]

theorem lookup_setProp_ne (ps : Props) (key other : String) (v : Value) (hne : other ≠ key) :
    (setProp ps key v).lookup other = ps.lookup other := by
  have h1 : (other == key) = false := by simpa using hne
  simp [setProp, List.lookup, h1, lookup_filter_ne ps key other hne]

theorem resolve_setProp_same (ps : Props) (key : String) (v : Value) :
    resolve (setProp ps key v) key = .ok v := by
  simp [resolve, lookup_setProp_same]

theorem resolve_setProp_ne (ps : Props) (key other : String) (v : Value) (hne : other ≠ key) :
    resolve (setProp ps key v) other = resolve ps other := by
  simp [resolve, lookup_setProp_ne ps key other v hne]

theorem makeInitialValues_of_result (window : Props) (v : Value)
    (hd : (isTouchDevice window).1 = .ok v) :
    makeInitialValues window =
      .ok (setProp window "initialValues" (.object [("isTouchDevice", v)])) := by
  rw [isTouchDevice_eq] at hd
  rw [makeInitialValues_eq]
  simp only [Except.ok.injEq] at hd
  rw [hd]

theorem getProp_Main_of_fullscreen (elm f : Value) (hf : getProp elm "fullscreen" = .ok f) :
    ∃ main, getProp elm "Main" = .ok main := by
  cases elm <;> simp [getProp] at hf ⊢

theorem constructApp_of_call (rt : Runtime) (w : Props) (elm main config : Value) (fid : Nat)
    (fps : Props) (hE : rt.Elm = some elm)
    (hf : getProp elm "fullscreen" = .ok (.func fid fps))
    (hm : getProp elm "Main" = .ok main)
    (hr : resolve w "initialValues" = .ok config) :
    constructApp rt w =
      match rt.call fid elm [main, config] w with
      | (.error e, w1) => (.error e, w1, [.construct fid main config])
      | (.ok app, w1) => (.ok app, setProp w1 "elmApp" app, [.construct fid main config]) := by
  unfold constructApp
  simp only [hE, hf, hm, hr]

theorem notify_of_touchPort (rt : Runtime) (w : Props) (handle port x a : Value) (sid : Nat)
    (he : resolve w "elmApp" = .ok handle)
    (hh : touchPort handle = some (port, sid))
    (hx : resolve w "initialValues" = .ok x)
    (ha : getProp x "isTouchDevice" = .ok a) :
    notify rt w =
      ((rt.call sid port [a] w).1, (rt.call sid port [a] w).2, [.send sid a]) := by
  unfold touchPort at hh
  unfold notify
  simp only [he]
  cases hp : getProp handle "ports" with
  | error e => simp [hp] at hh
  | ok ports =>
    simp only [hp] at hh ⊢
    cases hq : getProp ports "isTouchDevice" with
    | error e => simp [hq] at hh
    | ok p =>
      simp only [hq] at hh ⊢
      cases hs : getProp p "send" with
      | error e => simp [hs] at hh
      | ok f =>
        simp only [hs, hx, ha] at hh ⊢
        cases f <;> simp at hh
        obtain ⟨h1, h2⟩ := hh
        subst h1 h2
        rfl

theorem notify_trace_cases (rt : Runtime) (w : Props) :
    (notify rt w).2.2 = [] ∨ ∃ sid v, (notify rt w).2.2 = [.send sid v] := by
  unfold notify
  cases he : resolve w "elmApp" with
  | error e => exact Or.inl rfl
  | ok elmApp =>
    simp only
    cases hp : getProp elmApp "ports" with
    | error e => exact Or.inl rfl
    | ok ports =>
      simp only
      cases hq : getProp ports "isTouchDevice" with
      | error e => exact Or.inl rfl
      | ok port =>
        simp only
        cases hs : getProp port "send" with
        | error e => exact Or.inl rfl
        | ok f =>
          simp only
          cases hx : resolve w "initialValues" with
          | error e => exact Or.inl rfl
          | ok x =>
            simp only
            cases ha : getProp x "isTouchDevice" with
            | error e => exact Or.inl rfl
            | ok a => cases f <;> simp

theorem bootstrap_of_raise (rt : Runtime) (window w1 : Props) (v elm main : Value) (fid : Nat)
    (fps : Props) (e : JSError) (hd : (isTouchDevice window).1 = .ok v)
    (hE : rt.Elm = some elm)
    (hf : getProp elm "fullscreen" = .ok (.func fid fps))
    (hm : getProp elm "Main" = .ok main)
    (hcall : rt.call fid elm [main, .object [("isTouchDevice", v)]]
      (setProp window "initialValues" (.object [("isTouchDevice", v)])) = (.error e, w1)) :
    bootstrap rt window =
      ⟨.error e, w1, [.construct fid main (.object [("isTouchDevice", v)])]⟩ := by
  unfold bootstrap
  rw [makeInitialValues_of_result window v hd]
  simp only
  rw [constructApp_of_call rt _ elm main _ fid fps hE hf hm (resolve_setProp_same _ _ _), hcall]

theorem bootstrap_of_return (rt : Runtime) (window w1 : Props) (v elm main app : Value)
    (fid : Nat) (fps : Props) (hd : (isTouchDevice window).1 = .ok v)
    (hE : rt.Elm = some elm)
    (hf : getProp elm "fullscreen" = .ok (.func fid fps))
    (hm : getProp elm "Main" = .ok main)
    (hcall : rt.call fid elm [main, .object [("isTouchDevice", v)]]
      (setProp window "initialValues" (.object [("isTouchDevice", v)])) = (.ok app, w1)) :
    bootstrap rt window =
      ⟨(notify rt (setProp w1 "elmApp" app)).1.map (fun _ => ()),
       (notify rt (setProp w1 "elmApp" app)).2.1,
       .construct fid main (.object [("isTouchDevice", v)]) ::
         (notify rt (setProp w1 "elmApp" app)).2.2⟩ := by
  unfold bootstrap
  rw [makeInitialValues_of_result window v hd]
  simp only
  rw [constructApp_of_call rt _ elm main _ fid fps hE hf hm (resolve_setProp_same _ _ _), hcall]
  simp only
  rcases hn : notify rt (setProp w1 "elmApp" app) with ⟨r2, w2, t2⟩
  cases r2 <;> rfl

theorem bootstrap_of_handle (rt : Runtime) (window w1 : Props)
    (v elm main handle port x a : Value) (fid sid : Nat) (fps : Props)
    (hd : (isTouchDevice window).1 = .ok v)
    (hE : rt.Elm = some elm)
    (hf : getProp elm "fullscreen" = .ok (.func fid fps))
    (hm : getProp elm "Main" = .ok main)
    (hcall : rt.call fid elm [main, .object [("isTouchDevice", v)]]
      (setProp window "initialValues" (.object [("isTouchDevice", v)])) = (.ok handle, w1))
    (hh : touchPort handle = some (port, sid))
    (hx : resolve w1 "initialValues" = .ok x)
    (ha : getProp x "isTouchDevice" = .ok a) :
    bootstrap rt window =
      ⟨(rt.call sid port [a] (setProp w1 "elmApp" handle)).1.map (fun _ => ()),
       (rt.call sid port [a] (setProp w1 "elmApp" handle)).2,
       [.construct fid main (.object [("isTouchDevice", v)]), .send sid a]⟩ := by
  rw [bootstrap_of_return rt window w1 v elm main handle fid fps hd hE hf hm hcall]
  have hx2 : resolve (setProp w1 "elmApp" handle) "initialValues" = .ok x := by
    rw [resolve_setProp_ne w1 "elmApp" "initialValues" handle (by decide)]
    exact hx
  rw [notify_of_touchPort rt _ handle port x a sid (resolve_setProp_same _ _ _) hh hx2 ha]

/-- C3, amended: for every host environment and every runtime whose
construction entry point returns a handle with the port, and after whose
return `initialValues.isTouchDevice` can still be read (the variable holds
neither `undefined` nor `null`), the script calls `send` on the port exactly
once, with the value `a` read then: the run ends as that call of the port's
`send` with receiver the port and argument `a` ends. The value sent is the one
`isTouchDevice()` returned whenever the read still gives that value. -/
theorem bootstrap_sends_config_field_once (rt : Runtime) (window w1 : Props)
    (v elm main handle port x a : Value) (fid sid : Nat) (fps : Props)
    (hd : (isTouchDevice window).1 = .ok v)
    (hE : rt.Elm = some elm)
    (hf : getProp elm "fullscreen" = .ok (.func fid fps))
    (hm : getProp elm "Main" = .ok main)
    (hcall : rt.call fid elm [main, .object [("isTouchDevice", v)]]
      (setProp window "initialValues" (.object [("isTouchDevice", v)])) = (.ok handle, w1))
    (hh : touchPort handle = some (port, sid))
    (hx : resolve w1 "initialValues" = .ok x)
    (ha : getProp x "isTouchDevice" = .ok a) :
    sent (bootstrap rt window).trace = [a] ∧
    (bootstrap rt window).result =
      (rt.call sid port [a] (setProp w1 "elmApp" handle)).1.map (fun _ => ()) ∧
    (bootstrap rt window).window = (rt.call sid port [a] (setProp w1 "elmApp" handle)).2 ∧
    (a = v → sent (bootstrap rt window).trace = [v]) := by
  rw [bootstrap_of_handle rt window w1 v elm main handle port x a fid sid fps
    hd hE hf hm hcall hh hx ha]
  refine ⟨rfl, rfl, rfl, ?_⟩
  intro hav
  subst hav
  rfl

theorem bootstrap_sends_config_field_once_witness :
    sent (bootstrap recordingRuntime gestureWindow).trace = [.bool true] :=
  (bootstrap_sends_config_field_once recordingRuntime gestureWindow
    (setProp gestureWindow "initialValues" (.object [("isTouchDevice", .bool true)]))
    (.bool true) mockElm (.object []) mockHandle (.object [("send", .func 1 [])])
    (.object [("isTouchDevice", .bool true)]) (.bool true) 0 1 []
    rfl rfl rfl rfl rfl rfl rfl rfl).1

/-- C3 as stated fails: the host exposes `ontouchstart`, so `isTouchDevice()`
returns `true`; the mock entry point, called with `Elm.Main` and the
configuration, sets `config.isTouchDevice = false` and returns a handle with
the port; the value the port records as sent is `false`. -/
theorem sent_differs_from_detected :
    (isTouchDevice touchWindow).1 = .ok (.bool true) ∧
    ((overwritingRuntime false).call 0 mockElm
      [.object [], .object [("isTouchDevice", .bool true)]]
      (setProp touchWindow "initialValues" (.object [("isTouchDevice", .bool true)]))).1
      = .ok mockHandle ∧
    touchPort mockHandle = some (.object [("send", .func 1 [])], 1) ∧
    (bootstrap (overwritingRuntime false) touchWindow).trace =
      [.construct 0 (.object []) (.object [("isTouchDevice", .bool true)]),
       .send 1 (.bool false)] ∧
    sent (bootstrap (overwritingRuntime false) touchWindow).trace = [.bool false] ∧
    sent (bootstrap (overwritingRuntime false) touchWindow).trace ≠ [.bool true] :=
  ⟨rfl, rfl, rfl, rfl, rfl,
    by simp [show sent (bootstrap (overwritingRuntime false) touchWindow).trace
      = [.bool false] from rfl]⟩

/-- C4, amended: end to end, for every runtime whose construction entry point
returns a handle with the port and after whose return
`initialValues.isTouchDevice` still reads as the value the script stored: if
the host has `ontouchstart` defined the channel receives `true`, and if it has
neither `ontouchstart` nor `onmsgesturechange` defined the channel receives
`false`; in both cases the run ends as the call of the port's `send` with that
boolean ends. -/
theorem channel_receives_detection (rt : Runtime) (window w1 : Props)
    (v elm main handle port x : Value) (fid sid : Nat) (fps : Props)
    (hd : (isTouchDevice window).1 = .ok v)
    (hE : rt.Elm = some elm)
    (hf : getProp elm "fullscreen" = .ok (.func fid fps))
    (hm : getProp elm "Main" = .ok main)
    (hcall : rt.call fid elm [main, .object [("isTouchDevice", v)]]
      (setProp window "initialValues" (.object [("isTouchDevice", v)])) = (.ok handle, w1))
    (hh : touchPort handle = some (port, sid))
    (hx : resolve w1 "initialValues" = .ok x)
    (hkeep : getProp x "isTouchDevice" = .ok v) :
    ((∃ y, ("ontouchstart", y) ∈ window) →
      sent (bootstrap rt window).trace = [.bool true] ∧
      (bootstrap rt window).result =
        (rt.call sid port [.bool true] (setProp w1 "elmApp" handle)).1.map (fun _ => ())) ∧
    ((∀ y, ("ontouchstart", y) ∉ window) → (∀ y, ("onmsgesturechange", y) ∉ window) →
      sent (bootstrap rt window).trace = [.bool false] ∧
      (bootstrap rt window).result =
        (rt.call sid port [.bool false] (setProp w1 "elmApp" handle)).1.map (fun _ => ())) := by
  rw [bootstrap_of_handle rt window w1 v elm main handle port x v fid sid fps
    hd hE hf hm hcall hh hx hkeep]
  rw [isTouchDevice_eq] at hd
  simp only [Except.ok.injEq] at hd
  constructor
  · intro hy
    rw [(hasProperty_iff "ontouchstart" window).2 hy] at hd
    simp only [Bool.true_or] at hd
    subst hd
    exact ⟨rfl, rfl⟩
  · intro h1 h2
    rw [(hasProperty_eq_false_iff "ontouchstart" window).2 h1,
      (hasProperty_eq_false_iff "onmsgesturechange" window).2 h2] at hd
    simp only [Bool.or_self] at hd
    subst hd
    exact ⟨rfl, rfl⟩

theorem channel_receives_detection_witness :
    sent (bootstrap recordingRuntime touchWindow).trace = [.bool true] ∧
    sent (bootstrap recordingRuntime plainWindow).trace = [.bool false] :=
  ⟨((channel_receives_detection recordingRuntime touchWindow
      (setProp touchWindow "initialValues" (.object [("isTouchDevice", .bool true)]))
      (.bool true) mockElm (.object []) mockHandle (.object [("send", .func 1 [])])
      (.object [("isTouchDevice", .bool true)]) 0 1 []
      rfl rfl rfl rfl rfl rfl rfl rfl).1 ⟨.null, by simp [touchWindow]⟩).1,
   ((channel_receives_detection recordingRuntime plainWindow
      (setProp plainWindow "initialValues" (.object [("isTouchDevice", .bool false)]))
      (.bool false) mockElm (.object []) mockHandle (.object [("send", .func 1 [])])
      (.object [("isTouchDevice", .bool false)]) 0 1 []
      rfl rfl rfl rfl rfl rfl rfl rfl).2 (by simp [plainWindow]) (by simp [plainWindow])).1⟩

/-- C4 as stated fails: the host exposes neither marker, the mock entry point
sets `config.isTouchDevice = true` and returns a handle with the port, and the
channel receives `true`. -/
theorem channel_receives_true_without_marker :
    (∀ y, ("ontouchstart", y) ∉ plainWindow) ∧
    (∀ y, ("onmsgesturechange", y) ∉ plainWindow) ∧
    ((overwritingRuntime true).call 0 mockElm
      [.object [], .object [("isTouchDevice", .bool false)]]
      (setProp plainWindow "initialValues" (.object [("isTouchDevice", .bool false)]))).1
      = .ok mockHandle ∧
    touchPort mockHandle = some (.object [("send", .func 1 [])], 1) ∧
    sent (bootstrap (overwritingRuntime true) plainWindow).trace = [.bool true] ∧
    sent (bootstrap (overwritingRuntime true) plainWindow).trace ≠ [.bool false] :=
  ⟨by simp [plainWindow], by simp [plainWindow], rfl, rfl, rfl,
    by simp [show sent (bootstrap (overwritingRuntime true) plainWindow).trace
      = [.bool true] from rfl]⟩

theorem resolve_of_makeInitialValues (window w0 : Props)
    (hi : makeInitialValues window = .ok w0) :
    ∃ config, resolve w0 "initialValues" = .ok config := by
  rw [makeInitialValues_eq] at hi
  simp only [Except.ok.injEq] at hi
  subst hi
  exact ⟨_, resolve_setProp_same _ _ _⟩

/-- C5: when the construction entry point `Elm.fullscreen` is present and
callable, the script invokes it exactly once, and it is the first call the
script makes: the receiver is `Elm`, the program argument is the value of
`Elm.Main`, and the configuration argument is an object whose only field is
`isTouchDevice`, holding at the moment of the call the result of
`isTouchDevice()` on the host. What that invocation does decides the run: if
it raises, the script ends with its exception and the global object it left;
if it returns a value, that value is stored in `elmApp` and line 13 runs on
the global object it left. -/
theorem bootstrap_constructs_once (rt : Runtime) (window : Props) (elm : Value) (fid : Nat)
    (fps : Props) (hE : rt.Elm = some elm)
    (hf : getProp elm "fullscreen" = .ok (.func fid fps)) :
    ∃ v main, (isTouchDevice window).1 = .ok v ∧ getProp elm "Main" = .ok main ∧
      (bootstrap rt window).trace.head? =
        some (.construct fid main (.object [("isTouchDevice", v)])) ∧
      constructions (bootstrap rt window).trace = [(main, .object [("isTouchDevice", v)])] ∧
      (∀ e w1, rt.call fid elm [main, .object [("isTouchDevice", v)]]
          (setProp window "initialValues" (.object [("isTouchDevice", v)])) = (.error e, w1) →
        bootstrap rt window =
          ⟨.error e, w1, [.construct fid main (.object [("isTouchDevice", v)])]⟩) ∧
      (∀ app w1, rt.call fid elm [main, .object [("isTouchDevice", v)]]
          (setProp window "initialValues" (.object [("isTouchDevice", v)])) = (.ok app, w1) →
        bootstrap rt window =
          ⟨(notify rt (setProp w1 "elmApp" app)).1.map (fun _ => ()),
           (notify rt (setProp w1 "elmApp" app)).2.1,
           .construct fid main (.object [("isTouchDevice", v)]) ::
             (notify rt (setProp w1 "elmApp" app)).2.2⟩) := by
  obtain ⟨b, hb⟩ : ∃ b : Bool, (isTouchDevice window).1 = .ok (.bool b) := by
    rw [isTouchDevice_eq]
    exact ⟨_, rfl⟩
  obtain ⟨main, hm⟩ := getProp_Main_of_fullscreen elm _ hf
  have hraise := fun e w1 => bootstrap_of_raise rt window w1 (.bool b) elm main fid fps e hb hE hf hm
  have hreturn := fun app w1 =>
    bootstrap_of_return rt window w1 (.bool b) elm main app fid fps hb hE hf hm
  refine ⟨.bool b, main, hb, hm, ?_, ?_, hraise, hreturn⟩
  · rcases hr : rt.call fid elm [main, .object [("isTouchDevice", .bool b)]]
        (setProp window "initialValues" (.object [("isTouchDevice", .bool b)])) with ⟨res, w1⟩
    cases res with
    | error e => rw [hraise e w1 hr]; rfl
    | ok app => rw [hreturn app w1 hr]; rfl
  · rcases hr : rt.call fid elm [main, .object [("isTouchDevice", .bool b)]]
        (setProp window "initialValues" (.object [("isTouchDevice", .bool b)])) with ⟨res, w1⟩
    cases res with
    | error e => rw [hraise e w1 hr]; rfl
    | ok app =>
      rw [hreturn app w1 hr]
      rcases notify_trace_cases rt (setProp w1 "elmApp" app) with h0 | ⟨sid, y, h1⟩
      · simp [constructions, h0]
      · simp [constructions, h1]

theorem bootstrap_constructs_once_witness :
    ∃ v main, (isTouchDevice touchWindow).1 = .ok v ∧ getProp mockElm "Main" = .ok main ∧
      (bootstrap throwingRuntime touchWindow).trace.head? =
        some (.construct 0 main (.object [("isTouchDevice", v)])) ∧
      constructions (bootstrap throwingRuntime touchWindow).trace =
        [(main, .object [("isTouchDevice", v)])] :=
  match bootstrap_constructs_once throwingRuntime touchWindow mockElm 0 [] rfl rfl with
  | ⟨v, main, h1, h2, h3, h4, _⟩ => ⟨v, main, h1, h2, h3, h4⟩

/-- C6: if the construction entry point is absent (`Elm` undeclared, not an
object, or `Elm.fullscreen` not callable) or the call to it raises, the script
ends with that very exception, no value is sent on the port, and the entry
point is not tried again. -/
theorem bootstrap_fails_without_send (rt : Runtime) (window : Props) (h0 : Props)
    (e : JSError) (hi : makeInitialValues window = .ok h0)
    (hfail : EntryPointFails rt h0 e) :
    (bootstrap rt window).result = .error e ∧
    sent (bootstrap rt window).trace = [] ∧
    (constructions (bootstrap rt window).trace).length ≤ 1 := by
  obtain ⟨config, hcfg⟩ := resolve_of_makeInitialValues window h0 hi
  unfold bootstrap
  rw [hi]
  simp only
  cases hfail with
  | undeclared hE =>
    unfold constructApp
    simp [hE, sent, constructions]
  | unreadable elm e hE hf =>
    unfold constructApp
    simp [hE, hf, sent, constructions]
  | notCallable elm f hE hf hnc =>
    obtain ⟨main, hm⟩ := getProp_Main_of_fullscreen elm f hf
    unfold constructApp
    simp only [hE, hf, hm, hcfg]
    cases f with
    | func fid ps => exact absurd rfl (hnc fid ps)
    | _ => simp [sent, constructions]
  | raises elm main config2 fid ps e hE hf hm hr hcall =>
    rw [constructApp_of_call rt h0 elm main config2 fid ps hE hf hm hr]
    rcases hc : rt.call fid elm [main, config2] h0 with ⟨res, w1⟩
    rw [hc] at hcall
    simp only at hcall
    subst hcall
    simp [sent, constructions]

theorem bootstrap_fails_without_send_witness :
    ((bootstrap missingRuntime touchWindow).result = .error (.referenceError "Elm") ∧
      sent (bootstrap missingRuntime touchWindow).trace = [] ∧
      (constructions (bootstrap missingRuntime touchWindow).trace).length ≤ 1) ∧
    ((bootstrap throwingRuntime touchWindow).result = .error (.thrown (.string "boom")) ∧
      sent (bootstrap throwingRuntime touchWindow).trace = [] ∧
      (constructions (bootstrap throwingRuntime touchWindow).trace).length ≤ 1) :=
  ⟨bootstrap_fails_without_send missingRuntime touchWindow
      (setProp touchWindow "initialValues" (.object [("isTouchDevice", .bool true)]))
      (.referenceError "Elm") rfl (EntryPointFails.undeclared rfl),
   bootstrap_fails_without_send throwingRuntime touchWindow
      (setProp touchWindow "initialValues" (.object [("isTouchDevice", .bool true)]))
      (.thrown (.string "boom")) rfl
      (EntryPointFails.raises mockElm (.object []) (.object [("isTouchDevice", .bool true)])
        0 [] (.thrown (.string "boom")) rfl rfl rfl rfl rfl)⟩

/-- C9, amended: the interactions happen in the order detection, construction,
send, each at most once. When `Elm.fullscreen` returns a handle with the port
and `initialValues.isTouchDevice` can still be read after it returned (the
variable holds neither `undefined` nor `null`), the calls the script makes
into the runtime are exactly
`[fullscreen(Elm.Main, config), ports.isTouchDevice.send(a)]`: the
configuration passed holds the result of inspecting the host as it was before
the call, the value `a` is read once the handle has been returned, and the
script ends as the call to `send` ends, leaving the global object that call
left. -/
theorem bootstrap_trace_order (rt : Runtime) (window w1 : Props)
    (v elm main handle port x a : Value) (fid sid : Nat) (fps : Props)
    (hd : (isTouchDevice window).1 = .ok v)
    (hE : rt.Elm = some elm)
    (hf : getProp elm "fullscreen" = .ok (.func fid fps))
    (hm : getProp elm "Main" = .ok main)
    (hcall : rt.call fid elm [main, .object [("isTouchDevice", v)]]
      (setProp window "initialValues" (.object [("isTouchDevice", v)])) = (.ok handle, w1))
    (hh : touchPort handle = some (port, sid))
    (hx : resolve w1 "initialValues" = .ok x)
    (ha : getProp x "isTouchDevice" = .ok a) :
    (bootstrap rt window).trace =
      [.construct fid main (.object [("isTouchDevice", v)]), .send sid a] ∧
    (bootstrap rt window).result =
      (rt.call sid port [a] (setProp w1 "elmApp" handle)).1.map (fun _ => ()) ∧
    (bootstrap rt window).window =
      (rt.call sid port [a] (setProp w1 "elmApp" handle)).2 := by
  rw [bootstrap_of_handle rt window w1 v elm main handle port x a fid sid fps
    hd hE hf hm hcall hh hx ha]
  exact ⟨rfl, rfl, rfl⟩

theorem bootstrap_trace_order_witness :
    (bootstrap recordingRuntime touchWindow).trace =
      [.construct 0 (.object []) (.object [("isTouchDevice", .bool true)]),
       .send 1 (.bool true)] ∧
    (bootstrap recordingRuntime touchWindow).result = .ok () :=
  match bootstrap_trace_order recordingRuntime touchWindow
    (setProp touchWindow "initialValues" (.object [("isTouchDevice", .bool true)]))
    (.bool true) mockElm (.object []) mockHandle (.object [("send", .func 1 [])])
    (.object [("isTouchDevice", .bool true)]) (.bool true) 0 1 []
    rfl rfl rfl rfl rfl rfl rfl rfl with
  | ⟨h1, h2, _⟩ => ⟨h1, h2⟩

/-- C9 as stated fails: the host exposes `ontouchstart`; the mock entry point
sets `window.initialValues = undefined` and returns a handle with the port.
Line 13 then raises a TypeError while reading `initialValues.isTouchDevice`:
the only call the script made is the construction, and no send follows the
returned handle. -/
theorem send_skipped_after_handle :
    (isTouchDevice touchWindow).1 = .ok (.bool true) ∧
    (clearingRuntime.call 0 mockElm
      [.object [], .object [("isTouchDevice", .bool true)]]
      (setProp touchWindow "initialValues" (.object [("isTouchDevice", .bool true)]))).1
      = .ok mockHandle ∧
    touchPort mockHandle = some (.object [("send", .func 1 [])], 1) ∧
    (bootstrap clearingRuntime touchWindow).trace =
      [.construct 0 (.object []) (.object [("isTouchDevice", .bool true)])] ∧
    sent (bootstrap clearingRuntime touchWindow).trace = [] ∧
    (bootstrap clearingRuntime touchWindow).result =
      .error (.typeError "cannot read property of undefined") :=
  ⟨rfl, rfl, rfl, rfl, rfl, rfl⟩

end ElmInterop
